import Mathlib

/-!
Verification of the mlflow-auth authorization layer
(`mlflow/server/auth/__init__.py` and its companions) against its
natural-language specification.  Python functions are shallowly embedded
as executable Lean definitions; request/session state is passed
explicitly, fallible code returns `Except`.  Definitions carry the names
of the source functions they embed wherever Lean allows it.
-/

/-! ## Basic string machinery (kernel-computable stand-ins for Python str ops) -/

/-- Boolean test that the first list is a prefix of the second,
mirroring Python str.startswith on the character level. -/
def charsStarts : List Char → List Char → Bool
  | [], _ => true
  | _ :: _, [] => false
  | p :: ps, c :: cs => p == c && charsStarts ps cs

/-- Boolean substring test on character lists, mirroring the Python
membership test (pat in s). -/
def charsContains (pat : List Char) : List Char → Bool
  | [] => charsStarts pat []
  | c :: cs => charsStarts pat (c :: cs) || charsContains pat cs

/-- Python s.startswith(pat). -/
def strStarts (s pat : String) : Bool := charsStarts pat.data s.data

/-- Python pat in s. -/
def strContains (s pat : String) : Bool := charsContains pat.data s.data

/-! ## Error model (mlflow.exceptions.MlflowException and protobuf error codes) -/

/-- Error codes from mlflow.protos.databricks_pb2 used by the auth layer. -/
inductive MlErrorCode where
  | RESOURCE_DOES_NOT_EXIST
  | RESOURCE_ALREADY_EXISTS
  | INVALID_PARAMETER_VALUE
  | BAD_REQUEST
  | INTERNAL_ERROR
  deriving DecidableEq

/-- Embedding of MlflowException: a message plus an error code. -/
structure MlflowError where
  message : String
  error_code : MlErrorCode
  deriving DecidableEq

/-! ## Permission model -/

/-- Modelled from the spec: the permission levels of
mlflow.server.auth.permissions (module not present in src), per section 3
of the spec: READ, EDIT/UPDATE, MANAGE and NO_PERMISSIONS. -/
inductive PermissionLevel where
  | READ
  | EDIT
  | MANAGE
  | NO_PERMISSIONS
  deriving DecidableEq

/-- Modelled from the spec: the boolean capability projection of a
permission level (section 4.1): can_read, can_update, can_delete,
can_manage. -/
structure Permission where
  can_read : Bool
  can_update : Bool
  can_delete : Bool
  can_manage : Bool
  deriving DecidableEq

/-- Modelled from the spec: capabilities_of, a pure total function over
the fixed set of levels; MANAGE implies all capabilities, READ implies
only read, EDIT implies read and update, NO_PERMISSIONS implies none. -/
def get_permission : PermissionLevel → Permission
  | .READ => ⟨true, false, false, false⟩
  | .EDIT => ⟨true, true, false, false⟩
  | .MANAGE => ⟨true, true, true, true⟩
  | .NO_PERMISSIONS => ⟨false, false, false, false⟩

/-- The MANAGE level constant imported by the auth module. -/
def MANAGE : PermissionLevel := .MANAGE

/-! ## Permission store (experiment permissions) -/

/-- The experiment-permission table: (experiment_id, username) to level. -/
abbrev ExpPermStore := List ((String × String) × PermissionLevel)

/-- Modelled from the spec: SqlAlchemyStore.get_experiment_permission
(module not present in src); fails with a RESOURCE_DOES_NOT_EXIST
MlflowException when no grant exists for the pair (section 4.2). -/
def store_get_experiment_permission (s : ExpPermStore) (experiment_id username : String) :
    Except MlflowError PermissionLevel :=
  match s.lookup (experiment_id, username) with
  | some p => .ok p
  | none =>
    .error ⟨"Experiment permission with experiment_id=" ++ experiment_id ++
            " and username=" ++ username ++ " not found", .RESOURCE_DOES_NOT_EXIST⟩

/-- Modelled from the spec: SqlAlchemyStore.create_experiment_permission
(module not present in src); fails with AlreadyExists when a grant for
the pair already exists (section 4.2). -/
def store_create_experiment_permission (s : ExpPermStore)
    (experiment_id username : String) (p : PermissionLevel) :
    Except MlflowError ExpPermStore :=
  match s.lookup (experiment_id, username) with
  | some _ =>
    .error ⟨"Experiment permission already exists", .RESOURCE_ALREADY_EXISTS⟩
  | none => .ok (((experiment_id, username), p) :: s)

/-- Embedding of _get_permission_from_store_or_default: attempts to get
the permission level from the store and falls back to the configured
default permission when the store raises a RESOURCE_DOES_NOT_EXIST
error; every other error propagates unchanged. -/
def _get_permission_from_store_or_default
    (storeResult : Except MlflowError PermissionLevel)
    (defaultPermission : PermissionLevel) : Except MlflowError Permission :=
  match storeResult with
  | .ok p => .ok (get_permission p)
  | .error e =>
    if e.error_code = MlErrorCode.RESOURCE_DOES_NOT_EXIST then
      .ok (get_permission defaultPermission)
    else
      .error e

/-- Embedding of _get_permission_from_experiment_id: the effective
permission of a user on an experiment, combining the store lookup with
the configured default. -/
def _get_permission_from_experiment_id (s : ExpPermStore)
    (experiment_id username : String) (defaultPermission : PermissionLevel) :
    Except MlflowError Permission :=
  _get_permission_from_store_or_default
    (store_get_experiment_permission s experiment_id username) defaultPermission

/-- Embedding of set_can_manage_experiment_permission: the after-request
hook for CreateExperiment; experiment_id is the id parsed out of the
response body, username the authenticated creator. -/
def set_can_manage_experiment_permission (s : ExpPermStore)
    (experiment_id username : String) : Except MlflowError ExpPermStore :=
  store_create_experiment_permission s experiment_id username MANAGE

/-! ## Claim C3 -/

/-- Claim C3: for every (resource, user) pair, when the permission store
lookup fails with a RESOURCE_DOES_NOT_EXIST error the effective
permission returned to the validator is the one derived from the
configured default permission, and any store error with a different
error code propagates unchanged. -/
theorem store_or_default_notfound_falls_back (e : MlflowError) (d : PermissionLevel) :
    (e.error_code = MlErrorCode.RESOURCE_DOES_NOT_EXIST →
      _get_permission_from_store_or_default (.error e) d = .ok (get_permission d)) ∧
    (e.error_code ≠ MlErrorCode.RESOURCE_DOES_NOT_EXIST →
      _get_permission_from_store_or_default (.error e) d = .error e) := by
  constructor
  · intro h
    simp [_get_permission_from_store_or_default, h]
  · intro h
    simp [_get_permission_from_store_or_default, h]

/-- Witness for C3 at concrete inputs: a NotFound error on a store
lookup yields the default permission READ, while an INTERNAL_ERROR
propagates unchanged. -/
theorem store_or_default_notfound_falls_back_witness :
    _get_permission_from_store_or_default
      (.error ⟨"missing", .RESOURCE_DOES_NOT_EXIST⟩) .READ = .ok (get_permission .READ) ∧
    _get_permission_from_store_or_default
      (.error ⟨"boom", .INTERNAL_ERROR⟩) .READ = .error ⟨"boom", .INTERNAL_ERROR⟩ :=
  ⟨(store_or_default_notfound_falls_back ⟨"missing", .RESOURCE_DOES_NOT_EXIST⟩ .READ).1 (by decide),
   (store_or_default_notfound_falls_back ⟨"boom", .INTERNAL_ERROR⟩ .READ).2 (by decide)⟩

/-! ## Claim C7 -/

/-- Claim C7: for every successful CreateExperiment by user U, the
after-request hook creates a MANAGE grant for the new experiment id and
U, so U's effective permission on the created experiment is MANAGE
immediately afterwards. -/
theorem create_experiment_grants_manage (s : ExpPermStore)
    (experiment_id username : String) (d : PermissionLevel)
    (hfresh : s.lookup (experiment_id, username) = none) :
    ∃ s2, set_can_manage_experiment_permission s experiment_id username = .ok s2 ∧
      _get_permission_from_experiment_id s2 experiment_id username d =
        .ok (get_permission MANAGE) := by
  refine ⟨((experiment_id, username), MANAGE) :: s, ?_, ?_⟩
  · simp [set_can_manage_experiment_permission, store_create_experiment_permission, hfresh]
  · simp [_get_permission_from_experiment_id, store_get_experiment_permission,
          List.lookup, _get_permission_from_store_or_default]

/-- Witness for C7: creating experiment 7 as alice in an empty store
makes her effective permission MANAGE even with default NO_PERMISSIONS. -/
theorem create_experiment_grants_manage_witness :
    ∃ s2, set_can_manage_experiment_permission [] "7" "alice" = .ok s2 ∧
      _get_permission_from_experiment_id s2 "7" "alice" .NO_PERMISSIONS =
        .ok (get_permission MANAGE) :=
  create_experiment_grants_manage [] "7" "alice" .NO_PERMISSIONS (by decide)

/-! ## HTTP responses and routes -/

/-- Minimal embedding of a Flask response: status, body, extra headers. -/
structure HttpResponse where
  status : Nat
  body : String
  headers : List (String × String)
  deriving DecidableEq

/-- The login route from mlflow.server.auth.routes. -/
def LOGIN : String := "/login"

/-- The signup route from mlflow.server.auth.routes. -/
def SIGNUP : String := "/signup"

/-- Embedding of flask.redirect: a 302 response with a Location header. -/
def redirectResponse (location : String) : HttpResponse :=
  ⟨302, "", [("Location", location)]⟩

/-- Embedding of make_basic_auth_response: a 401 with a plain-text body
and, deliberately, no WWW-Authenticate header. -/
def make_basic_auth_response : HttpResponse :=
  ⟨401, "You are not authenticated. Please login at /login to access this resource.", []⟩

/-- Embedding of make_forbidden_response: a 403 with the generic body. -/
def make_forbidden_response : HttpResponse :=
  ⟨403, "Permission denied", []⟩

/-- Embedding of is_unprotected_route. -/
def is_unprotected_route (path : String) : Bool :=
  strStarts path "/static" || strStarts path "/favicon.ico" || strStarts path "/health" ||
    path == LOGIN || path == SIGNUP

/-- Embedding of _handle_unauthenticated_request: browser requests
(Accept header containing text/html) are redirected to the login page,
with the original URL attached as the next target only for GET
requests; all other requests get a 401 with a plain-text body and no
WWW-Authenticate header. -/
def _handle_unauthenticated_request (acceptHeader method url : String) : HttpResponse :=
  if strContains acceptHeader "text/html" then
    let next_url : Option String := if method = "GET" then some url else none
    let login_url : String :=
      match next_url with
      | some n => LOGIN ++ "?next=" ++ n
      | none => LOGIN
    redirectResponse login_url
  else
    ⟨401, "You are not authenticated. Please login at /login to access this resource.", []⟩

/-! ## Session-based authentication -/

/-- The Flask session as read and written by the auth layer: the four
keys the code touches, each possibly absent.  Times are integers
(seconds); login_time is the issuance instant. -/
structure SessionState where
  username : Option String
  user_id : Option Nat
  is_admin : Option Bool
  login_time : Option Int
  deriving DecidableEq

/-- Embedding of session.clear(): all keys removed. -/
def emptySession : SessionState := ⟨none, none, none, none⟩

/-- Outcome of session authentication: an Authorization object carrying
the identity data, or an unauthenticated response. -/
inductive SessionAuthOutcome where
  | authorized (username : String) (user_id : Nat) (is_admin : Bool)
  | unauthenticated (r : HttpResponse)
  deriving DecidableEq

/-- Embedding of authenticate_request_session: requires username and
user_id in the session; if login_time is present, rejects (clearing the
session) when the elapsed time since issuance strictly exceeds the
configured lifetime; otherwise returns the identity.  Returns the
updated session together with the outcome. -/
def authenticate_request_session (sess : SessionState) (now lifetime : Int)
    (acceptHeader method url : String) : SessionState × SessionAuthOutcome :=
  match sess.username, sess.user_id with
  | some u, some uid =>
    match sess.login_time with
    | some t =>
      if now - t > lifetime then
        (emptySession, .unauthenticated (_handle_unauthenticated_request acceptHeader method url))
      else
        (sess, .authorized u uid (sess.is_admin.getD false))
    | none => (sess, .authorized u uid (sess.is_admin.getD false))
  | _, _ => (sess, .unauthenticated (_handle_unauthenticated_request acceptHeader method url))

/-! ## Claim C4 -/

/-- Claim C4: for a session carrying username, user_id and login_time T,
authentication succeeds exactly when the elapsed time since T does not
exceed the lifetime D, and on expiry the session is cleared before the
unauthenticated response is produced.  In particular a session issued at
T succeeds at T + D - 1 and fails at T + D + 1. -/
theorem session_auth_expiry (sess : SessionState) (u : String) (uid : Nat)
    (T now D : Int) (a m url : String)
    (hu : sess.username = some u) (hi : sess.user_id = some uid)
    (ht : sess.login_time = some T) :
    (now - T ≤ D →
      authenticate_request_session sess now D a m url =
        (sess, .authorized u uid (sess.is_admin.getD false))) ∧
    (now - T > D →
      authenticate_request_session sess now D a m url =
        (emptySession, .unauthenticated (_handle_unauthenticated_request a m url))) := by
  constructor
  · intro h
    simp [authenticate_request_session, hu, hi, ht]
    omega
  · intro h
    simp [authenticate_request_session, hu, hi, ht, h]

/-- Witness for C4: a session issued at T = 100 with lifetime D = 50 is
accepted at time 149 = T + D - 1 and rejected (session cleared) at time
151 = T + D + 1. -/
theorem session_auth_expiry_witness :
    authenticate_request_session ⟨some "alice", some 1, some false, some 100⟩ 149 50 "" "GET" "/u" =
      (⟨some "alice", some 1, some false, some 100⟩, .authorized "alice" 1 false) ∧
    authenticate_request_session ⟨some "alice", some 1, some false, some 100⟩ 151 50 "" "GET" "/u" =
      (emptySession, .unauthenticated (_handle_unauthenticated_request "" "GET" "/u")) :=
  ⟨(session_auth_expiry ⟨some "alice", some 1, some false, some 100⟩ "alice" 1 100 149 50
      "" "GET" "/u" rfl rfl rfl).1 (by decide),
   (session_auth_expiry ⟨some "alice", some 1, some false, some 100⟩ "alice" 1 100 151 50
      "" "GET" "/u" rfl rfl rfl).2 (by decide)⟩

/-! ## Claim C9 -/

/-- Claim C9: a session containing username and user_id but no
login_time is authenticated without any expiry check, whatever the
current time and configured lifetime. -/
theorem session_auth_no_login_time_never_expires (sess : SessionState)
    (u : String) (uid : Nat) (now D : Int) (a m url : String)
    (hu : sess.username = some u) (hi : sess.user_id = some uid)
    (ht : sess.login_time = none) :
    authenticate_request_session sess now D a m url =
      (sess, .authorized u uid (sess.is_admin.getD false)) := by
  simp [authenticate_request_session, hu, hi, ht]

/-- Witness for C9: a login_time-less session is accepted even one
billion seconds past any lifetime. -/
theorem session_auth_no_login_time_never_expires_witness :
    authenticate_request_session ⟨some "bob", some 2, some true, none⟩ 1000000000 1 "" "GET" "/u" =
      (⟨some "bob", some 2, some true, none⟩, .authorized "bob" 2 true) :=
  session_auth_no_login_time_never_expires ⟨some "bob", some 2, some true, none⟩
    "bob" 2 1000000000 1 "" "GET" "/u" rfl rfl rfl

/-! ## Claim C5 -/

/-- Counterexample for C5 as stated: an HTML-accepting POST request that
fails authentication is redirected to the bare login route; the original
request URL is not carried as a post-login redirect target. -/
theorem unauthenticated_html_post_drops_next_url :
    _handle_unauthenticated_request "text/html" "POST" "http://h/exp" =
      redirectResponse "/login" ∧
    redirectResponse "/login" ≠ redirectResponse (LOGIN ++ "?next=" ++ "http://h/exp") := by
  constructor
  · rfl
  · decide

/-- Claim C5 (amended): on failed authentication, HTML-accepting
requests are redirected to the login route, carrying the original URL as
the post-login redirect target only when the method is GET; non-GET
HTML-accepting requests are redirected without a target; every other
request receives a 401 with a plain-text body and no WWW-Authenticate
header. -/
theorem unauthenticated_response_shape (a m url : String) :
    (strContains a "text/html" = true → m = "GET" →
      _handle_unauthenticated_request a m url =
        redirectResponse (LOGIN ++ "?next=" ++ url)) ∧
    (strContains a "text/html" = true → m ≠ "GET" →
      _handle_unauthenticated_request a m url = redirectResponse LOGIN) ∧
    (strContains a "text/html" = false →
      (_handle_unauthenticated_request a m url).status = 401 ∧
      (_handle_unauthenticated_request a m url).headers.lookup "WWW-Authenticate" = none ∧
      (_handle_unauthenticated_request a m url).body =
        "You are not authenticated. Please login at /login to access this resource.") := by
  refine ⟨?_, ?_, ?_⟩
  · intro h hm
    simp [_handle_unauthenticated_request, h, hm]
  · intro h hm
    simp [_handle_unauthenticated_request, h, hm]
  · intro h
    simp [_handle_unauthenticated_request, h]

/-- Witness for the amended C5 at concrete inputs: an HTML GET is
redirected with the original URL attached, an HTML POST is redirected
bare, and a JSON request gets a challenge-free 401. -/
theorem unauthenticated_response_shape_witness :
    _handle_unauthenticated_request "text/html" "GET" "http://h/exp" =
      redirectResponse (LOGIN ++ "?next=" ++ "http://h/exp") ∧
    _handle_unauthenticated_request "text/html" "POST" "http://h/exp" =
      redirectResponse LOGIN ∧
    (_handle_unauthenticated_request "application/json" "GET" "http://h/exp").status = 401 := by
  refine ⟨?_, ?_, ?_⟩
  · exact (unauthenticated_response_shape "text/html" "GET" "http://h/exp").1 (by decide) rfl
  · exact (unauthenticated_response_shape "text/html" "POST" "http://h/exp").2.1 (by decide)
      (by decide)
  · exact ((unauthenticated_response_shape "application/json" "GET" "http://h/exp").2.2
      (by decide)).1

/-! ## Request parameter resolution -/

/-- The pieces of the Flask request that _get_request_param consults:
the method, the query string (request.args), the parsed JSON body
(request.json), whether the request declared a JSON content type
(request.is_json), and the URL path parameters (request.view_args,
None when no route matched). -/
structure RequestData where
  method : String
  query_args : List (String × String)
  json_body : List (String × String)
  is_json : Bool
  view_args : Option (List (String × String))

/-- The method-dependent argument source selected by _get_request_param:
query args for GET, the JSON body for POST and PATCH, the body when the
request is JSON and the query args otherwise for DELETE, and a
BAD_REQUEST error for any other method. -/
def requestArgsSource (rc : RequestData) : Except MlflowError (List (String × String)) :=
  if rc.method = "GET" then .ok rc.query_args
  else if rc.method = "POST" ∨ rc.method = "PATCH" then .ok rc.json_body
  else if rc.method = "DELETE" then .ok (if rc.is_json then rc.json_body else rc.query_args)
  else .error ⟨"Unsupported HTTP method " ++ rc.method, .BAD_REQUEST⟩

/-- Lookup in the dict union args | (view_args or empty): the right
operand (the path view arguments) wins on key collisions. -/
def mergedLookup (args : List (String × String))
    (viewArgs : Option (List (String × String))) (param : String) : Option String :=
  match (viewArgs.getD []).lookup param with
  | some v => some v
  | none => args.lookup param

/-- The MlflowException raised for a missing required parameter. -/
def missingParamError (param : String) : MlflowError :=
  ⟨"Missing value for required parameter " ++ param ++
    ". See the API docs for more information about request parameters.",
   .INVALID_PARAMETER_VALUE⟩

/-- Embedding of _get_request_param: resolve a request parameter from
the method-appropriate source merged with the path view arguments; a
missing run_id falls back to the legacy run_uuid parameter before
failing. -/
def _get_request_param (rc : RequestData) (param : String) : Except MlflowError String :=
  match requestArgsSource rc with
  | .error e => .error e
  | .ok args =>
    match mergedLookup args rc.view_args param with
    | some v => .ok v
    | none =>
      if param = "run_id" then
        match mergedLookup args rc.view_args "run_uuid" with
        | some v => .ok v
        | none => .error (missingParamError "run_uuid")
      else .error (missingParamError param)

/-! ## Claim C8 -/

/-- Claim C8: a required parameter absent from both the
method-appropriate argument source (query args for GET, JSON body for
POST and PATCH, body-or-args for DELETE) and the path view arguments
makes parameter resolution fail with an invalid-parameter error naming
the missing parameter; run_id first falls back to the legacy run_uuid
parameter before failing. -/
theorem request_param_missing_raises (rc : RequestData) (p : String)
    (args : List (String × String))
    (hsrc : requestArgsSource rc = .ok args) :
    (rc.method = "GET" → requestArgsSource rc = .ok rc.query_args) ∧
    ((rc.method = "POST" ∨ rc.method = "PATCH") → requestArgsSource rc = .ok rc.json_body) ∧
    (rc.method = "DELETE" →
      requestArgsSource rc = .ok (if rc.is_json then rc.json_body else rc.query_args)) ∧
    (p ≠ "run_id" → mergedLookup args rc.view_args p = none →
      _get_request_param rc p = .error (missingParamError p) ∧
      (missingParamError p).error_code = .INVALID_PARAMETER_VALUE ∧
      (missingParamError p).message =
        "Missing value for required parameter " ++ p ++
          ". See the API docs for more information about request parameters.") ∧
    (mergedLookup args rc.view_args "run_id" = none →
      (∀ v, mergedLookup args rc.view_args "run_uuid" = some v →
        _get_request_param rc "run_id" = .ok v) ∧
      (mergedLookup args rc.view_args "run_uuid" = none →
        _get_request_param rc "run_id" = .error (missingParamError "run_uuid"))) := by
  refine ⟨?_, ?_, ?_, ?_, ?_⟩
  · intro h
    simp [requestArgsSource, h]
  · intro h
    rcases h with h | h <;> simp [requestArgsSource, h]
  · intro h
    by_cases hg : rc.method = "GET"
    · rw [hg] at h; exact absurd h (by decide)
    · by_cases hp : rc.method = "POST"
      · rw [hp] at h; exact absurd h (by decide)
      · by_cases hpa : rc.method = "PATCH"
        · rw [hpa] at h; exact absurd h (by decide)
        · simp [requestArgsSource, hg, hp, hpa, h]
  · intro hp hnone
    refine ⟨?_, rfl, rfl⟩
    simp [_get_request_param, hsrc, hnone, hp]
  · intro hnone
    constructor
    · intro v hv
      simp [_get_request_param, hsrc, hnone, hv]
    · intro huuid
      simp [_get_request_param, hsrc, hnone, huuid]

/-- Witness for C8: on a GET request with empty sources, a missing
experiment_id fails naming experiment_id, a missing run_id with a
run_uuid present resolves to the run_uuid value, and a missing run_id
with no run_uuid fails naming run_uuid. -/
theorem request_param_missing_raises_witness :
    _get_request_param ⟨"GET", [("x", "1")], [], false, none⟩ "experiment_id" =
      .error (missingParamError "experiment_id") ∧
    _get_request_param ⟨"GET", [("run_uuid", "abc")], [], false, none⟩ "run_id" = .ok "abc" ∧
    _get_request_param ⟨"GET", [("x", "1")], [], false, none⟩ "run_id" =
      .error (missingParamError "run_uuid") :=
  ⟨((request_param_missing_raises ⟨"GET", [("x", "1")], [], false, none⟩ "experiment_id"
      [("x", "1")] rfl).2.2.2.1 (by decide) (by decide)).1,
   ((request_param_missing_raises ⟨"GET", [("run_uuid", "abc")], [], false, none⟩ "run_id"
      [("run_uuid", "abc")] rfl).2.2.2.2 (by decide)).1 "abc" (by decide),
   ((request_param_missing_raises ⟨"GET", [("x", "1")], [], false, none⟩ "run_id"
      [("x", "1")] rfl).2.2.2.2 (by decide)).2 (by decide)⟩

/-! ## Claim C10 -/

/-- Claim C10: when a parameter occurs both in the body or query
argument source and in the URL path view arguments, parameter resolution
returns the path view-argument value: view arguments override same-named
body and query values. -/
theorem request_param_view_args_override (rc : RequestData) (p v : String)
    (args : List (String × String))
    (hsrc : requestArgsSource rc = .ok args)
    (hview : (rc.view_args.getD []).lookup p = some v) :
    _get_request_param rc p = .ok v := by
  have hm : mergedLookup args rc.view_args p = some v := by
    simp [mergedLookup, hview]
  simp [_get_request_param, hsrc, hm]

/-- Witness for C10: a POST body value for experiment_id is overridden
by the path view argument of the same name. -/
theorem request_param_view_args_override_witness :
    _get_request_param
      ⟨"POST", [], [("experiment_id", "bodyval")], true, some [("experiment_id", "pathval")]⟩
      "experiment_id" = .ok "pathval" :=
  request_param_view_args_override
    ⟨"POST", [], [("experiment_id", "bodyval")], true, some [("experiment_id", "pathval")]⟩
    "experiment_id" "pathval" [("experiment_id", "bodyval")] rfl (by decide)

/-! ## Artifact proxy resolution -/

/-- takeWhile and dropWhile on a list that is an all-true block followed
by a failing element: the block is taken and the rest is dropped. -/
theorem takeWhile_all_append (p : Char → Bool) (l1 : List Char) (c : Char) (l2 : List Char)
    (h1 : ∀ x ∈ l1, p x = true) (h2 : p c = false) :
    (l1 ++ c :: l2).takeWhile p = l1 ∧ (l1 ++ c :: l2).dropWhile p = c :: l2 := by
  induction l1 with
  | nil => simp [List.takeWhile_cons, List.dropWhile_cons, h2]
  | cons a l ih =>
    have ha : p a = true := h1 a (by simp)
    have hl : ∀ x ∈ l, p x = true := fun x hx => h1 x (by simp [hx])
    have ih2 := ih hl
    simp [List.takeWhile_cons, List.dropWhile_cons, ha, ih2.1, ih2.2]

/-- Embedding of the _EXPERIMENT_ID_PATTERN regex match: the leading
run of digits of the string, provided it is nonempty and immediately
followed by a slash. -/
def expIdPatternMatch (s : String) : Option String :=
  if s.data.takeWhile Char.isDigit ≠ [] ∧
      (s.data.dropWhile Char.isDigit).head? = some '/' then
    some (String.mk (s.data.takeWhile Char.isDigit))
  else none

/-- A Python-level error as it escapes the auth layer: either an
MlflowException, which catch_mlflow_exception converts to an HTTP
status, or an uncaught AttributeError such as calling .get on None,
which surfaces as a server error. -/
inductive PyError where
  | mlflow (e : MlflowError)
  | attributeError (msg : String)
  deriving DecidableEq

/-- Lift an MlflowException-fallible result into the Python-level error
type. -/
def pyLift : Except MlflowError α → Except PyError α
  | .ok a => .ok a
  | .error e => .error (.mlflow e)

/-- Embedding of _get_experiment_id_from_view_args: reads
request.view_args.get, so when request.view_args is None (no route
matched the request) the attribute access raises AttributeError;
otherwise the experiment id is the leading numeric segment of the
artifact_path view argument when that argument is present, non-empty
and matches the pattern. -/
def _get_experiment_id_from_view_args (viewArgs : Option (List (String × String))) :
    Except PyError (Option String) :=
  match viewArgs with
  | none => .error (.attributeError "NoneType object has no attribute get")
  | some va =>
    .ok (match va.lookup "artifact_path" with
      | some ap => if ap ≠ "" then expIdPatternMatch ap else none
      | none => none)

/-- Embedding of _get_permission_from_experiment_id_artifact_proxy: the
effective permission governing an artifact-proxy request; falls back to
the configured default permission, with no experiment id, when the
artifact path yields no pattern match, and propagates the uncaught
AttributeError when the view arguments are entirely absent. -/
def _get_permission_from_experiment_id_artifact_proxy
    (viewArgs : Option (List (String × String)))
    (s : ExpPermStore) (username : String) (d : PermissionLevel) :
    Except PyError Permission :=
  match _get_experiment_id_from_view_args viewArgs with
  | .error e => .error e
  | .ok (some eid) =>
    pyLift (_get_permission_from_store_or_default
      (store_get_experiment_permission s eid username) d)
  | .ok none => .ok (get_permission d)

/-- Embedding of validate_can_read_experiment_artifact_proxy. -/
def validate_can_read_experiment_artifact_proxy (viewArgs : Option (List (String × String)))
    (s : ExpPermStore) (username : String) (d : PermissionLevel) : Except PyError Bool :=
  (_get_permission_from_experiment_id_artifact_proxy viewArgs s username d).map (·.can_read)

/-- Embedding of validate_can_update_experiment_artifact_proxy. -/
def validate_can_update_experiment_artifact_proxy (viewArgs : Option (List (String × String)))
    (s : ExpPermStore) (username : String) (d : PermissionLevel) : Except PyError Bool :=
  (_get_permission_from_experiment_id_artifact_proxy viewArgs s username d).map (·.can_update)

/-- Embedding of validate_can_delete_experiment_artifact_proxy: note
that, as in the source, deletion requires the can_manage capability,
not can_delete. -/
def validate_can_delete_experiment_artifact_proxy (viewArgs : Option (List (String × String)))
    (s : ExpPermStore) (username : String) (d : PermissionLevel) : Except PyError Bool :=
  (_get_permission_from_experiment_id_artifact_proxy viewArgs s username d).map (·.can_manage)

/-- The three capability checks an artifact-proxy request can be routed
to, naming the validator functions of the source. -/
inductive ProxyCheck where
  | readCheck
  | updateCheck
  | manageCheck
  deriving DecidableEq

/-- Embedding of _get_proxy_artifact_validator: absent view args select
the read (bulk list) check; otherwise the method selects download to
read, upload to update and delete to manage; other methods get none. -/
def _get_proxy_artifact_validator (method : String)
    (viewArgs : Option (List (String × String))) : Option ProxyCheck :=
  match viewArgs with
  | none => some .readCheck
  | some _ =>
    if method = "GET" then some .readCheck
    else if method = "PUT" then some .updateCheck
    else if method = "DELETE" then some .manageCheck
    else none

/-- Evaluation of a selected proxy check against the request context:
dispatches to the corresponding validator of the source, which reads
request.view_args itself. -/
def run_proxy_check (check : ProxyCheck) (viewArgs : Option (List (String × String)))
    (s : ExpPermStore) (username : String) (d : PermissionLevel) : Except PyError Bool :=
  match check with
  | .readCheck => validate_can_read_experiment_artifact_proxy viewArgs s username d
  | .updateCheck => validate_can_update_experiment_artifact_proxy viewArgs s username d
  | .manageCheck => validate_can_delete_experiment_artifact_proxy viewArgs s username d

/-! ## Claim C6 -/

/-- Counterexample for C6 as stated: with view arguments entirely
absent, the selected bulk-list read check does not fall back to the
configured default permission: evaluating it raises an uncaught
AttributeError (None has no attribute get), surfacing as a server
error. -/
theorem artifact_proxy_absent_view_args_crashes :
    _get_proxy_artifact_validator "GET" none = some ProxyCheck.readCheck ∧
    _get_permission_from_experiment_id_artifact_proxy none [] "alice" PermissionLevel.READ =
      .error (PyError.attributeError "NoneType object has no attribute get") ∧
    _get_permission_from_experiment_id_artifact_proxy none [] "alice" PermissionLevel.READ ≠
      .ok (get_permission PermissionLevel.READ) :=
  ⟨rfl, rfl, fun h => Except.noConfusion h⟩

/-- Claim C6 (amended): the governing resource id of an artifact-proxy
request is the leading numeric segment of the artifact_path view
argument when it matches the digits-then-slash pattern; a present but
non-matching artifact path falls back to the configured default
permission with no specific experiment id; entirely absent view
arguments select the bulk-list read check, but evaluating it raises an
uncaught AttributeError instead of falling back to the default; and the
capability required is can_read for GET, can_update for PUT and
can_manage, not can_delete, for DELETE. -/
theorem artifact_proxy_resolution (s : ExpPermStore) (username : String)
    (d : PermissionLevel) (va : List (String × String)) (method ap : String)
    (ds rest : List Char) :
    (va.lookup "artifact_path" = some ap → ap.data = ds ++ '/' :: rest →
      ds ≠ [] → (∀ c ∈ ds, c.isDigit = true) →
      _get_permission_from_experiment_id_artifact_proxy (some va) s username d =
        pyLift (_get_permission_from_store_or_default
          (store_get_experiment_permission s (String.mk ds) username) d)) ∧
    (_get_experiment_id_from_view_args (some va) = .ok none →
      _get_permission_from_experiment_id_artifact_proxy (some va) s username d =
        .ok (get_permission d)) ∧
    (_get_proxy_artifact_validator method none = some .readCheck ∧
      _get_permission_from_experiment_id_artifact_proxy none s username d =
        .error (.attributeError "NoneType object has no attribute get")) ∧
    (_get_proxy_artifact_validator "GET" (some va) = some .readCheck ∧
      _get_proxy_artifact_validator "PUT" (some va) = some .updateCheck ∧
      _get_proxy_artifact_validator "DELETE" (some va) = some .manageCheck) ∧
    (∀ perm, _get_permission_from_experiment_id_artifact_proxy (some va) s username d =
        .ok perm →
      run_proxy_check .readCheck (some va) s username d = .ok perm.can_read ∧
      run_proxy_check .updateCheck (some va) s username d = .ok perm.can_update ∧
      run_proxy_check .manageCheck (some va) s username d = .ok perm.can_manage) := by
  refine ⟨?_, ?_, ⟨rfl, rfl⟩, ?_, ?_⟩
  · intro hap hdata hds hdig
    have hW := takeWhile_all_append Char.isDigit ds '/' rest hdig (by decide)
    have hap0 : ap ≠ "" := by
      intro hc
      have hlen : (ds ++ '/' :: rest).length = 0 := by
        rw [← hdata, hc]
        rfl
      simp at hlen
    simp [_get_permission_from_experiment_id_artifact_proxy,
          _get_experiment_id_from_view_args, hap, hap0, expIdPatternMatch, hdata,
          hW.1, hW.2, hds]
  · intro h
    simp [_get_permission_from_experiment_id_artifact_proxy, h]
  · refine ⟨rfl, ?_, ?_⟩ <;> simp [_get_proxy_artifact_validator]
  · intro perm h
    refine ⟨?_, ?_, ?_⟩ <;>
      simp [run_proxy_check, validate_can_read_experiment_artifact_proxy,
        validate_can_update_experiment_artifact_proxy,
        validate_can_delete_experiment_artifact_proxy, h, Except.map]

/-- Witness for the amended C6: for artifact_path 42/model.bin with an
EDIT grant on experiment 42 for alice and default NO_PERMISSIONS, the
resolution keys the store lookup by 42, and DELETE selects the manage
check. -/
theorem artifact_proxy_resolution_witness :
    _get_permission_from_experiment_id_artifact_proxy
      (some [("artifact_path", "42/model.bin")]) [(("42", "alice"), .EDIT)]
      "alice" .NO_PERMISSIONS =
      pyLift (_get_permission_from_store_or_default
        (store_get_experiment_permission [(("42", "alice"), .EDIT)]
          (String.mk ['4', '2']) "alice") .NO_PERMISSIONS) ∧
    _get_proxy_artifact_validator "DELETE" (some [("artifact_path", "42/model.bin")]) =
      some .manageCheck :=
  ⟨(artifact_proxy_resolution [(("42", "alice"), .EDIT)] "alice" .NO_PERMISSIONS
      [("artifact_path", "42/model.bin")] "DELETE" "42/model.bin"
      ['4', '2'] "model.bin".data).1 (by decide) rfl (by decide) (by decide),
   (artifact_proxy_resolution [(("42", "alice"), .EDIT)] "alice" .NO_PERMISSIONS
      [("artifact_path", "42/model.bin")] "DELETE" "42/model.bin"
      ['4', '2'] "model.bin".data).2.2.2.1.2.2⟩

/-! ## Before-request interception -/

/-- The REST API path prefix of the host server (mlflow.utils.rest_utils). -/
def _REST_API_PATH_PREFIX : String := "/api/2.0"

/-- Embedding of _is_proxy_artifact_path. -/
def _is_proxy_artifact_path (path : String) : Bool :=
  strStarts path (_REST_API_PATH_PREFIX ++ "/mlflow-artifacts/artifacts/")

/-- Split a character list on slashes, mirroring Python str.split. -/
def splitSlash : List Char → List (List Char)
  | [] => [[]]
  | c :: cs =>
    let r := splitSlash cs
    if c = '/' then [] :: r
    else
      match r with
      | [] => [[c]]
      | seg :: rests => (c :: seg) :: rests

/-- A path-template segment of the form enclosed in angle brackets,
which _re_compile_path turns into a nonempty wildcard. -/
def isParamSeg : List Char → Bool
  | '<' :: rest => !rest.isEmpty && rest.getLast? == some '>'
  | _ => false

/-- One template segment against one path segment: a bracketed template
segment matches any nonempty segment, anything else matches literally. -/
def segMatches (t p : List Char) : Bool :=
  if isParamSeg t then !p.isEmpty else t == p

/-- Embedding of _re_compile_path plus re.fullmatch: a path matches a
bracketed template when the segment lists align. -/
def pathTemplateMatches (template path : String) : Bool :=
  let ts := splitSlash template.data
  let ps := splitSlash path.data
  ts.length == ps.length && (List.zip ts ps).all fun tp => segMatches tp.1 tp.2

/-- A registered validator table entry: a (path-or-template, method) key
and the boolean the validator returns when invoked on this request. -/
abbrev ValidatorTable := List ((String × String) × Bool)

/-- Embedding of _find_validator: logged-model paths are matched by
template against the logged-model table, every other path by exact
(path, method) lookup in the static validator table. -/
def _find_validator (validators loggedModelValidators : ValidatorTable)
    (path method : String) : Option Bool :=
  if strContains path "/mlflow/logged-models" then
    (loggedModelValidators.find? fun e =>
      pathTemplateMatches e.1.1 path && e.1.2 == method).map (·.2)
  else
    validators.lookup (path, method)

/-- Result of the configured authentication function as seen by
_before_request: a response short-circuits, an Authorization carries the
identity, anything else is an unsupported type. -/
inductive AuthnResult where
  | response (r : HttpResponse)
  | authorization (username : String)
  | unsupported
  deriving DecidableEq

/-- Outcome of the before-request hook: proceed (no early response, the
request is allowed through), an early response, or a raised
MlflowException (handled by catch_mlflow_exception). -/
inductive BeforeOutcome where
  | proceed
  | early (r : HttpResponse)
  | exception (e : MlflowError)
  deriving DecidableEq

/-- Embedding of _before_request: allow-listed paths pass; a response
from authentication short-circuits; admins bypass authorization; then
the matching validator, or for artifact-proxy paths the method-selected
proxy validator, decides; with no validator at all the request is
allowed.  Validator invocation results are supplied by the tables and by
proxyEval. -/
def _before_request (path method : String) (authn : AuthnResult)
    (senderIsAdmin : Bool) (validators loggedModelValidators : ValidatorTable)
    (viewArgs : Option (List (String × String)))
    (proxyEval : ProxyCheck → Bool) : BeforeOutcome :=
  if is_unprotected_route path then .proceed
  else
    match authn with
    | .response r => .early r
    | .unsupported =>
      .exception ⟨"Unsupported result type from the authorization function", .INTERNAL_ERROR⟩
    | .authorization _ =>
      if senderIsAdmin then .proceed
      else
        match _find_validator validators loggedModelValidators path method with
        | some ok => if ok then .proceed else .early make_forbidden_response
        | none =>
          if _is_proxy_artifact_path path then
            match _get_proxy_artifact_validator method viewArgs with
            | some check => if proxyEval check then .proceed else .early make_forbidden_response
            | none => .proceed
          else .proceed

/-! ## Claim C1 -/

/-- Claim C1: a request whose path is not on the unprotected allow-list,
whose caller authenticates as a non-admin user, for which no validator
is registered for the exact (path, method) pair, no logged-model route
template matches the path, and whose path is not an artifact-proxy
path, produces no early response: the before-request hook allows it by
default. -/
theorem before_request_allows_by_default (path method u : String)
    (validators loggedModelValidators : ValidatorTable)
    (viewArgs : Option (List (String × String))) (proxyEval : ProxyCheck → Bool)
    (hunprot : is_unprotected_route path = false)
    (hexact : validators.lookup (path, method) = none)
    (hlogged : ∀ e ∈ loggedModelValidators,
      ¬(pathTemplateMatches e.1.1 path && e.1.2 == method) = true)
    (hproxy : _is_proxy_artifact_path path = false) :
    _before_request path method (.authorization u) false validators
      loggedModelValidators viewArgs proxyEval = .proceed := by
  have hfind : _find_validator validators loggedModelValidators path method = none := by
    unfold _find_validator
    by_cases hlm : strContains path "/mlflow/logged-models" = true
    · rw [if_pos hlm, List.find?_eq_none.mpr hlogged]
      rfl
    · rw [if_neg hlm]
      exact hexact
  simp [_before_request, hunprot, hfind, hproxy]

/-- Witness for C1: an unknown API route with an authenticated non-admin
caller and empty validator tables is allowed through. -/
theorem before_request_allows_by_default_witness :
    _before_request "/api/2.0/mlflow/unknown-endpoint" "GET" (.authorization "alice")
      false [] [] none (fun _ => false) = .proceed :=
  before_request_allows_by_default "/api/2.0/mlflow/unknown-endpoint" "GET" "alice"
    [] [] none (fun _ => false) (by decide) (by decide) (by intro e he; cases he)
    (by decide)

/-! ## Search filtering with pagination backfill -/

/-- An experiment as seen by filter_search_experiments: only its id
matters for authorization. -/
structure ExperimentEnt where
  experiment_id : String
  deriving DecidableEq

/-- The read-access predicate built in filter_search_experiments from
the list of the callers experiment grants and the configured default:
can_read.get(e.experiment_id, default_can_read). -/
def canReadExperiment (grants : List (String × PermissionLevel))
    (defaultPermission : PermissionLevel) (e : ExperimentEnt) : Bool :=
  match grants.lookup e.experiment_id with
  | some p => (get_permission p).can_read
  | none => (get_permission defaultPermission).can_read

/-- Modelled from the spec: the upstream tracking-store search over the
full ordered result sequence, offset-paginated (section 4.6 point 5:
a flat numeric offset token for experiments, with none playing the empty
token and SearchUtils decoding the empty token as offset 0); returns one
page and the token of the next page, cleared when the data runs out. -/
def tracking_search_experiments (all : List α) (maxResults : Nat)
    (pageToken : Option Nat) : List α × Option Nat :=
  let off := pageToken.getD 0
  let page := (all.drop off).take maxResults
  (page, if off + page.length < all.length then some (off + page.length) else none)

/-- The while loop of filter_search_experiments, fuelled: while the
accumulated readable results are fewer than maxResults and a token
remains, refetch a batch at the token offset, truncate it to the slots
left, clear the token and stop on an empty batch, and otherwise append
the readable entries and recompute the token as the batch start offset
plus the consumed batch length. -/
def filterLoop (all : List α) (P : α → Bool) (maxResults : Nat) :
    Nat → List α → Option Nat → List α × Option Nat
  | 0, acc, tok => (acc, tok)
  | fuel + 1, acc, tok =>
    if acc.length < maxResults then
      match tok with
      | none => (acc, none)
      | some off =>
        let batch := ((all.drop off).take maxResults).take (maxResults - acc.length)
        if batch.length = 0 then (acc, none)
        else filterLoop all P maxResults fuel (acc ++ batch.filter P) (some (off + batch.length))
    else (acc, tok)

/-- Embedding of filter_search_experiments: drop the unreadable entries
of the already-fetched page, then backfill readable entries from the
upstream store up to maxResults.  The fuel bound all.length + 2 is large
enough that the loop always reaches its exit condition. -/
def filter_search_experiments (all : List α) (P : α → Bool) (maxResults : Nat)
    (page : List α) (tok : Option Nat) : List α × Option Nat :=
  filterLoop all P maxResults (all.length + 2) (page.filter P) tok

/-- One full serving of a search request: the upstream store answers the
request token, then the after-request filter rewrites the page and the
token. -/
def served_search (all : List α) (P : α → Bool) (maxResults : Nat)
    (reqTok : Option Nat) : List α × Option Nat :=
  let r := tracking_search_experiments all maxResults reqTok
  filter_search_experiments all P maxResults r.1 r.2

/-- The pages a client obtains by starting with an empty token and
following the recomputed next-page token, concatenated; fuelled. -/
def collect_pages (all : List α) (P : α → Bool) (maxResults : Nat) :
    Nat → Option Nat → List α
  | 0, _ => []
  | fuel + 1, tok =>
    let r := served_search all P maxResults tok
    match r.2 with
    | none => r.1
    | some t2 => r.1 ++ collect_pages all P maxResults fuel (some t2)

/-- The filter loop is inert on an empty token. -/
theorem filterLoop_none (all : List α) (P : α → Bool) (maxResults fuel : Nat)
    (acc : List α) : filterLoop all P maxResults fuel acc none = (acc, none) := by
  cases fuel with
  | zero => rfl
  | succ n =>
    simp only [filterLoop]
    split <;> rfl

/-- Core invariant of the filter loop: starting from a consumed prefix
of the upstream sequence, the loop appends exactly the readable entries
of some further-consumed range; the final token, when present, points at
the first unconsumed upstream index and then the page is exactly full;
when absent, the upstream sequence is exhausted. -/
theorem filterLoop_spec (all : List α) (P : α → Bool) (maxResults : Nat) :
    ∀ fuel off acc, acc.length ≤ maxResults → off ≤ all.length →
      all.length - off < fuel →
    ∃ c, (filterLoop all P maxResults fuel acc (some off)).1
            = acc ++ ((all.drop off).take c).filter P ∧
      off + c ≤ all.length ∧
      (filterLoop all P maxResults fuel acc (some off)).1.length ≤ maxResults ∧
      (((filterLoop all P maxResults fuel acc (some off)).2 = some (off + c) ∧
          (filterLoop all P maxResults fuel acc (some off)).1.length = maxResults) ∨
        ((filterLoop all P maxResults fuel acc (some off)).2 = none ∧
          all.length ≤ off + c)) := by
  intro fuel
  induction fuel with
  | zero => intro off acc _ _ h3; omega
  | succ fuel ih =>
    intro off acc h1 h2 h3
    by_cases hlt : acc.length < maxResults
    · have hbatch : ((all.drop off).take maxResults).take (maxResults - acc.length)
          = (all.drop off).take (maxResults - acc.length) := by
        rw [List.take_take, Nat.min_eq_left (Nat.sub_le _ _)]
      by_cases hb : (((all.drop off).take maxResults).take (maxResults - acc.length)).length = 0
      · have hres : filterLoop all P maxResults (fuel + 1) acc (some off) = (acc, none) := by
          simp only [filterLoop, if_pos hlt, if_pos hb]
        have hoff : all.length ≤ off := by
          rw [hbatch] at hb
          simp [List.length_take, List.length_drop] at hb
          omega
        refine ⟨0, ?_, by omega, ?_, Or.inr ⟨by rw [hres], by omega⟩⟩
        · rw [hres]
          simp
        · rw [hres]
          exact h1
      · set blen := (((all.drop off).take maxResults).take (maxResults - acc.length)).length
          with hblen
        have hblen2 : blen = min (maxResults - acc.length) (all.length - off) := by
          rw [hblen, hbatch]
          simp [List.length_take, List.length_drop]
        have hb1 : 1 ≤ blen := by omega
        have hoffb : off + blen ≤ all.length := by omega
        have hbtake : ((all.drop off).take maxResults).take (maxResults - acc.length)
            = (all.drop off).take blen := by
          rw [hbatch]
          apply List.take_eq_take.mpr
          rw [List.length_drop]
          omega
        have hlen3 : ((all.drop off).take blen).length = blen := by
          simp [List.length_take, List.length_drop]
          omega
        have hres : filterLoop all P maxResults (fuel + 1) acc (some off)
            = filterLoop all P maxResults fuel
                (acc ++ ((all.drop off).take blen).filter P) (some (off + blen)) := by
          simp only [filterLoop, if_pos hlt]
          rw [if_neg hb, hbtake, hlen3]
        have hacc2 : (acc ++ ((all.drop off).take blen).filter P).length ≤ maxResults := by
          have hf := List.length_filter_le P ((all.drop off).take blen)
          simp only [List.length_append]
          omega
        obtain ⟨c2, hc1, hc2, hc3, hc4⟩ :=
          ih (off + blen) (acc ++ ((all.drop off).take blen).filter P) hacc2 hoffb (by omega)
        refine ⟨blen + c2, ?_, by omega, by rw [hres]; exact hc3, ?_⟩
        · have hdd : List.drop (off + blen) all = List.drop blen (List.drop off all) := by
            rw [List.drop_drop, Nat.add_comm]
          rw [hres, hc1, hdd, List.take_add, List.filter_append, List.append_assoc]
        · rw [hres]
          rcases hc4 with ⟨h4a, h4b⟩ | ⟨h4a, h4b⟩
          · left
            refine ⟨?_, h4b⟩
            rw [h4a]
            congr 1
            omega
          · right
            exact ⟨h4a, by omega⟩
    · have hres : filterLoop all P maxResults (fuel + 1) acc (some off) = (acc, some off) := by
        simp only [filterLoop, if_neg hlt]
      refine ⟨0, ?_, by omega, ?_, Or.inl ⟨?_, ?_⟩⟩
      · rw [hres]
        simp
      · rw [hres]
        exact h1
      · rw [hres]
        simp
      · rw [hres]
        show acc.length = maxResults
        omega

/-- One served search call: the returned page is the readable filtrate
of a consumed contiguous range starting at the request offset; with a
token returned the page is exactly full and the token points at the
first unconsumed index; without one the upstream sequence is exhausted. -/
theorem served_search_spec (all : List α) (P : α → Bool) (maxResults : Nat)
    (hmax : 1 ≤ maxResults) (t : Nat) (ht : t ≤ all.length) :
    ∃ c, (served_search all P maxResults (some t)).1 = ((all.drop t).take c).filter P ∧
      (served_search all P maxResults (some t)).1.length ≤ maxResults ∧
      (((served_search all P maxResults (some t)).2 = some (t + c) ∧
          (served_search all P maxResults (some t)).1.length = maxResults ∧
          t + c ≤ all.length) ∨
        ((served_search all P maxResults (some t)).2 = none ∧ all.length ≤ t + c)) := by
  have hplen : ((all.drop t).take maxResults).length = min maxResults (all.length - t) := by
    simp [List.length_take, List.length_drop]
  by_cases hmore : t + ((all.drop t).take maxResults).length < all.length
  · have hplen2 : ((all.drop t).take maxResults).length = maxResults := by omega
    have hsv : served_search all P maxResults (some t)
        = filterLoop all P maxResults (all.length + 2)
            (((all.drop t).take maxResults).filter P) (some (t + maxResults)) := by
      simp only [served_search, tracking_search_experiments, filter_search_experiments,
        Option.getD_some]
      rw [if_pos hmore, hplen2]
    have hkept : (((all.drop t).take maxResults).filter P).length ≤ maxResults := by
      have := List.length_filter_le P ((all.drop t).take maxResults)
      omega
    obtain ⟨c2, hc1, hc2, hc3, hc4⟩ := filterLoop_spec all P maxResults (all.length + 2)
      (t + maxResults) (((all.drop t).take maxResults).filter P) hkept (by omega) (by omega)
    have hdd : List.drop (t + maxResults) all = List.drop maxResults (List.drop t all) := by
      rw [List.drop_drop, Nat.add_comm]
    refine ⟨maxResults + c2, ?_, ?_, ?_⟩
    · rw [hsv, hc1, hdd, List.take_add, List.filter_append]
    · rw [hsv]
      exact hc3
    · rw [hsv]
      rcases hc4 with ⟨h4a, h4b⟩ | ⟨h4a, h4b⟩
      · left
        refine ⟨?_, h4b, by omega⟩
        rw [h4a]
        congr 1
        omega
      · right
        exact ⟨h4a, by omega⟩
  · have hsv : served_search all P maxResults (some t)
        = (((all.drop t).take maxResults).filter P, none) := by
      simp only [served_search, tracking_search_experiments, filter_search_experiments,
        Option.getD_some]
      rw [if_neg hmore]
      exact filterLoop_none all P maxResults (all.length + 2) _
    refine ⟨((all.drop t).take maxResults).length, ?_, ?_, Or.inr ⟨by rw [hsv], by omega⟩⟩
    · rw [hsv]
      show List.filter P ((all.drop t).take maxResults)
          = List.filter P ((all.drop t).take ((all.drop t).take maxResults).length)
      congr 1
      symm
      apply List.take_eq_take.mpr
      rw [List.length_drop]
      omega
    · rw [hsv]
      show (List.filter P ((all.drop t).take maxResults)).length ≤ maxResults
      have := List.length_filter_le P ((all.drop t).take maxResults)
      omega

/-- Following the recomputed tokens from any offset serves exactly the
readable subsequence of the remaining upstream sequence. -/
theorem collect_pages_correct (all : List α) (P : α → Bool) (maxResults : Nat)
    (hmax : 1 ≤ maxResults) :
    ∀ fuel t, t ≤ all.length → all.length - t < fuel →
      collect_pages all P maxResults fuel (some t) = (all.drop t).filter P := by
  intro fuel
  induction fuel with
  | zero => intro t ht h; omega
  | succ fuel ih =>
    intro t ht h
    obtain ⟨c, hc1, hc2, hc3⟩ := served_search_spec all P maxResults hmax t ht
    rcases hc3 with ⟨hs, hlen, hcle⟩ | ⟨hs, hge⟩
    · have hc0 : 1 ≤ c := by
        by_contra hcc
        have hc00 : c = 0 := by omega
        rw [hc00] at hc1
        simp at hc1
        rw [hc1] at hlen
        simp at hlen
        omega
      have hcoll : collect_pages all P maxResults (fuel + 1) (some t)
          = (served_search all P maxResults (some t)).1 ++
              collect_pages all P maxResults fuel (some (t + c)) := by
        simp only [collect_pages, hs]
      rw [hcoll, hc1, ih (t + c) hcle (by omega)]
      rw [← List.filter_append]
      congr 1
      have hdd : List.drop (t + c) all = List.drop c (List.drop t all) := by
        rw [List.drop_drop, Nat.add_comm]
      rw [hdd, List.take_append_drop]
    · have hcoll : collect_pages all P maxResults (fuel + 1) (some t)
          = (served_search all P maxResults (some t)).1 := by
        simp only [collect_pages, hs]
      rw [hcoll, hc1]
      congr 1
      apply List.take_of_length_le
      rw [List.length_drop]
      omega

/-! ## Claim C2 -/

/-- Claim C2: for every upstream experiment sequence and every
read-access predicate built from the callers grants plus the configured
default permission, concatenating all pages obtained by following the
recomputed next-page token yields exactly the ordered readable
subsequence of the upstream sequence, with no duplicates and no
omissions; within one invocation the page never exceeds max_results and,
whenever a token is returned, the page is exactly full and the token
offset points at the first unconsumed upstream index; and the loop
clears the token when a freshly fetched batch is empty. -/
theorem filter_search_experiments_pagination_law (all : List ExperimentEnt)
    (grants : List (String × PermissionLevel)) (d : PermissionLevel)
    (maxResults : Nat) (hmax : 1 ≤ maxResults) :
    collect_pages all (canReadExperiment grants d) maxResults (all.length + 1) none
      = all.filter (canReadExperiment grants d) ∧
    (∀ t, t ≤ all.length →
      ∃ c, (served_search all (canReadExperiment grants d) maxResults (some t)).1
              = ((all.drop t).take c).filter (canReadExperiment grants d) ∧
        (served_search all (canReadExperiment grants d) maxResults (some t)).1.length
            ≤ maxResults ∧
        (((served_search all (canReadExperiment grants d) maxResults (some t)).2
              = some (t + c) ∧
            (served_search all (canReadExperiment grants d) maxResults (some t)).1.length
              = maxResults ∧
            t + c ≤ all.length) ∨
          ((served_search all (canReadExperiment grants d) maxResults (some t)).2 = none ∧
            all.length ≤ t + c))) ∧
    (∀ fuel acc off, acc.length < maxResults → all.length ≤ off →
      filterLoop all (canReadExperiment grants d) maxResults (fuel + 1) acc (some off)
        = (acc, none)) := by
  refine ⟨?_, fun t ht => served_search_spec all (canReadExperiment grants d)
    maxResults hmax t ht, ?_⟩
  · have h0 : served_search all (canReadExperiment grants d) maxResults none
        = served_search all (canReadExperiment grants d) maxResults (some 0) := rfl
    have hcoll : collect_pages all (canReadExperiment grants d) maxResults
          (all.length + 1) none
        = collect_pages all (canReadExperiment grants d) maxResults
            (all.length + 1) (some 0) := by
      simp only [collect_pages, h0]
    rw [hcoll, collect_pages_correct all (canReadExperiment grants d) maxResults hmax
      (all.length + 1) 0 (Nat.zero_le _) (by omega)]
    simp
  · intro fuel acc off h1 h2
    have hdrop : all.drop off = [] := List.drop_eq_nil_iff.mpr h2
    simp only [filterLoop, if_pos h1, hdrop, List.take_nil, List.length_nil]
    simp

/-- Witness for C2: three experiments, a NO_PERMISSIONS grant on the
second one, default READ, page size one: the client-visible
concatenation of all pages is exactly the first and third experiment. -/
theorem filter_search_experiments_pagination_law_witness :
    collect_pages [ExperimentEnt.mk "1", ExperimentEnt.mk "2", ExperimentEnt.mk "3"]
      (canReadExperiment [("2", PermissionLevel.NO_PERMISSIONS)] PermissionLevel.READ) 1
      ([ExperimentEnt.mk "1", ExperimentEnt.mk "2", ExperimentEnt.mk "3"].length + 1) none
      = [ExperimentEnt.mk "1", ExperimentEnt.mk "3"] := by
  rw [(filter_search_experiments_pagination_law
    [ExperimentEnt.mk "1", ExperimentEnt.mk "2", ExperimentEnt.mk "3"]
    [("2", PermissionLevel.NO_PERMISSIONS)] PermissionLevel.READ 1 (by decide)).1]
  decide
